import Mathlib

/-!
Shallow embedding of `mei-godot` (src/mei-godot/src/galaxy.rs), the Godot
query-and-projection layer over the external `mei` galaxy generation engine.

Machine integers are modelled as `Int`/`Nat` with explicit two's-complement
casts; `f64` values are modelled as `ℚ` (the code performs no float
arithmetic beyond `min` and narrowing casts, both modelled explicitly).
Godot dictionaries are association lists with insert-or-replace `set`.
The `mei` crate (GalaxyAPI / generator / config loader) is an external
black box; its behaviour is a parameter `MeiEnv` of every operation, so
theorems quantify over engine behaviours and concrete instances serve as
test fixtures.  `godot_error!` messages are modelled as a diagnostics list;
`godot_print!` logging is elided (it carries no data used by callers).
-/

namespace MeiGodot

/-- f64 scalars, modelled as rationals. -/
abbrev F64 := ℚ

/-- Rust cast `i64 as u64` (two's-complement wrap into `[0, 2^64)`). -/
def toU64 (i : Int) : Nat := (i % (2:Int)^64).toNat

/-- Rust cast `u64 as i64` / `usize as i64` (two's-complement reinterpret). -/
def toI64 (n : Nat) : Int := if n < 2^63 then (n : Int) else (n : Int) - 2^64

/-- Rust cast `i64 as usize` on a 64-bit target (two's-complement wrap). -/
def toUSize (i : Int) : Nat := (i % (2:Int)^64).toNat

/-- Rust cast `f64 as i64`: truncate toward zero, saturating at the i64 range. -/
def f64AsI64 (q : F64) : Int :=
  let t : Int := if 0 ≤ q then ⌊q⌋ else ⌈q⌉
  max (-(2:Int)^63) (min ((2:Int)^63 - 1) t)

/-- mei's `Vec3` of `f64` coordinates. -/
structure Vec3 where
  x : F64
  y : F64
  z : F64
deriving DecidableEq, Repr

/-- mei's star-type enumeration is external; the layer only ever formats it
with `format!("{:?}", star.star_type)` and passes it to the engine's
type-level accessors, so it is modelled as a carrier of its Debug name. -/
structure StarType where
  name : String
deriving DecidableEq, Repr

/-- Rust `format!("{:?}", star.star_type)`. -/
def debugFmt (t : StarType) : String := t.name

/-- mei's `Star` as accessed by galaxy.rs: `id`, `position`, `mass`,
`star_type` (`luminosity()`/`temperature()` accessors live in `MeiEnv`). -/
structure Star where
  id : Nat
  position : Vec3
  mass : F64
  star_type : StarType
deriving DecidableEq, Repr

/-- The 14 planet classes matched exhaustively in `planet_to_dict`. -/
inductive PlanetType where
  | Dwarf | Terrestrial | SuperEarth | Desert | Ocean | Lava
  | MiniNeptune | SubNeptune | IceGiant | GasGiant | HotJupiter
  | Chthonian | Carbon | Coreless
deriving DecidableEq, Repr

/-- The 7 moon classes matched exhaustively in `moon_to_dict`. -/
inductive MoonType where
  | Rocky | Icy | IceRock | Ocean | Volcanic | Captured | Atmospheric
deriving DecidableEq, Repr

/-- The 3 asteroid classes matched exhaustively in `asteroid_to_dict`. -/
inductive AsteroidType where
  | Carbonaceous | Silicate | Metallic
deriving DecidableEq, Repr

/-- The 3 comet classes matched exhaustively in `comet_to_dict`. -/
inductive CometType where
  | ShortPeriod | LongPeriod | Hyperbolic
deriving DecidableEq, Repr

/-- mei's `StellarConfiguration`, the five variants matched in `get_star_system`. -/
inductive StellarConfiguration where
  | Single
  | CloseBinary (separation_au : F64) (is_contact : Bool)
  | WideBinary (separation_au : F64)
  | HierarchicalTriple (inner_separation_au : F64) (outer_separation_au : F64)
  | UnstableTriple
deriving DecidableEq, Repr

/-- mei's `Moon` as accessed by `moon_to_dict`. -/
structure Moon where
  moon_type : MoonType
  mass : F64
  position : Vec3
deriving DecidableEq, Repr

/-- mei's `Planet` as accessed by `planet_to_dict`. -/
structure Planet where
  planet_type : PlanetType
  mass : F64
  position : Vec3
  moons : List Moon
deriving DecidableEq, Repr

/-- mei's `Asteroid` as accessed by `asteroid_to_dict`. -/
structure Asteroid where
  asteroid_type : AsteroidType
  mass : F64
  diameter : F64
  orbital_radius : F64
  position : Vec3
deriving DecidableEq, Repr

/-- mei's `AsteroidBelt` as accessed by `asteroid_belt_to_dict`. -/
structure AsteroidBelt where
  name : String
  inner_radius : F64
  outer_radius : F64
  total_mass : F64
  asteroid_count : Nat
  largest_bodies : List Asteroid
deriving DecidableEq, Repr

/-- mei's `Comet` as accessed by `comet_to_dict`. -/
structure Comet where
  comet_type : CometType
  mass : F64
  nucleus_diameter : F64
  orbital_radius : F64
  eccentricity : F64
  position : Vec3
deriving DecidableEq, Repr

/-- mei's `OortCloud` as accessed by `oort_cloud_to_dict`. -/
structure OortCloud where
  inner_radius : F64
  outer_radius : F64
  estimated_population : Nat
  total_mass : F64
  notable_comets : List Comet
deriving DecidableEq, Repr

/-- mei's `StellarComponent` as accessed by `get_star_system`. -/
structure StellarComponent where
  star_indices : List Nat
  barycenter : Vec3
  combined_mass : F64
  internal_separation : F64
  is_interacting : Bool
  planet_inner_limit : F64
  planet_outer_limit : F64
  frost_line : F64
  habitable_zone_inner : F64
  habitable_zone_outer : F64
  inner_planets : List Planet
  outer_planets : List Planet
deriving DecidableEq, Repr

/-- mei's `StarSystem` root aggregate as accessed by `get_star_system`. -/
structure StarSystem where
  position : Vec3
  stars : List Star
  stellar_config : StellarConfiguration
  stellar_components : List StellarComponent
  inner_planets : List Planet
  outer_planets : List Planet
  asteroid_belts : List AsteroidBelt
  oort_cloud : Option OortCloud
  frost_line : F64
  habitable_zone_inner : F64
  habitable_zone_outer : F64
deriving DecidableEq, Repr

/-- mei's `SystemQuery` (galaxy.rs always sends `position: None`). -/
structure SystemQuery where
  star_id : String
  position : Option Vec3
deriving DecidableEq, Repr

/-- mei's `GeneratorConfig` fields read or written by galaxy.rs. -/
structure GeneratorConfig where
  nearby_max_radius : F64
  structure_block_size : F64
  structure_samples_per_block : Nat
deriving DecidableEq, Repr

/-- The bound `GalaxyAPI`: galaxy.rs observes exactly its seed (fixed at
construction) and its generator's mutable `config`. -/
structure GalaxyAPI where
  seed : Nat
  config : GeneratorConfig
deriving DecidableEq, Repr

/-- Behaviour of the external `mei` crate, a parameter of every operation.
Engine queries are pure functions of (seed, config, arguments), per the
engine contract; `f32` is the (consistent) `f64 → f32` narrowing cast. -/
structure MeiEnv where
  defaultConfig : GeneratorConfig
  starLuminosity : Star → F64
  starTemperature : Star → F64
  typeLuminosity : StarType → F64
  typeTemperature : StarType → F64
  getGalacticStructure : Nat → GeneratorConfig → Nat → List Star
  estimateTotalStars : Nat → GeneratorConfig → F64 → F64
  getNearbyStars : Nat → GeneratorConfig → Vec3 → F64 → Nat → List Star
  getStarSystem : Nat → GeneratorConfig → SystemQuery → StarSystem
  loadFromFile : String → GeneratorConfig
  f32 : F64 → F64

/-- `GalaxyAPI::new(seed)`: deterministic construction with default config. -/
def GalaxyAPI.new (env : MeiEnv) (seed : Nat) : GalaxyAPI :=
  { seed := seed, config := env.defaultConfig }

/-- `GalaxyAPI::new_with_config(seed, config)`. -/
def GalaxyAPI.new_with_config (seed : Nat) (config : GeneratorConfig) : GalaxyAPI :=
  { seed := seed, config := config }

/-- The `MeiGalaxy` Godot node state: `seed: i64` and `api: Option<GalaxyAPI>`. -/
structure MeiGalaxy where
  seed : Int
  api : Option GalaxyAPI
deriving DecidableEq, Repr

/-- Godot variant values produced by this layer. -/
inductive GVal where
  | int (i : Int)
  | float (q : F64)
  | str (s : String)
  | bool (b : Bool)
  | vec3Array (a : List (F64 × F64 × F64))
  | i64Array (a : List Int)
  | f32Array (a : List F64)
  | strArray (a : List String)
  | dict (d : List (String × GVal))
  | dictArray (a : List (List (String × GVal)))

/-- A Godot `Dictionary`: insertion-ordered association list. -/
abbrev GDict := List (String × GVal)

/-- Godot `Dictionary::set`: replace in place if the key exists, else append. -/
def dictSet : GDict → String → GVal → GDict
  | [], k, v => [(k, v)]
  | p :: d, k, v => if p.1 = k then (k, v) :: d else p :: dictSet d k v

/-- Look a key up in a dictionary. -/
def dictGet : GDict → String → Option GVal
  | [], _ => none
  | p :: d, k => if p.1 = k then some p.2 else dictGet d k

/-- The keys of a dictionary, in insertion order. -/
def dictKeys (d : GDict) : List String := d.map Prod.fst

/-- Build the position sub-dictionary `{x, y, z}` used throughout galaxy.rs. -/
def vec3_to_dict (v : Vec3) : GDict :=
  dictSet (dictSet (dictSet [] "x" (.float v.x)) "y" (.float v.y)) "z" (.float v.z)

/-- The planet-type label match inside `planet_to_dict` (galaxy.rs:496-511). -/
def planetTypeLabel : PlanetType → String
  | .Dwarf => "Dwarf"
  | .Terrestrial => "Terrestrial"
  | .SuperEarth => "SuperEarth"
  | .Desert => "Desert"
  | .Ocean => "Ocean"
  | .Lava => "Lava"
  | .MiniNeptune => "MiniNeptune"
  | .SubNeptune => "SubNeptune"
  | .IceGiant => "IceGiant"
  | .GasGiant => "GasGiant"
  | .HotJupiter => "HotJupiter"
  | .Chthonian => "Chthonian"
  | .Carbon => "Carbon"
  | .Coreless => "Coreless"

/-- The moon-type label match inside `moon_to_dict` (galaxy.rs:548-556). -/
def moonTypeLabel : MoonType → String
  | .Rocky => "Rocky"
  | .Icy => "Icy"
  | .IceRock => "IceRock"
  | .Ocean => "Ocean"
  | .Volcanic => "Volcanic"
  | .Captured => "Captured"
  | .Atmospheric => "Atmospheric"

/-- The asteroid-type label match inside `asteroid_to_dict` (galaxy.rs:621-625). -/
def asteroidTypeLabel : AsteroidType → String
  | .Carbonaceous => "Carbonaceous"
  | .Silicate => "Silicate"
  | .Metallic => "Metallic"

/-- The comet-type label match inside `comet_to_dict` (galaxy.rs:690-694). -/
def cometTypeLabel : CometType → String
  | .ShortPeriod => "ShortPeriod"
  | .LongPeriod => "LongPeriod"
  | .Hyperbolic => "Hyperbolic"

/-- The `type` tag written by the `StellarConfiguration` match in
`get_star_system` (galaxy.rs:362-393). -/
def configTypeLabel : StellarConfiguration → String
  | .Single => "Single"
  | .CloseBinary _ _ => "CloseBinary"
  | .WideBinary _ => "WideBinary"
  | .HierarchicalTriple _ _ => "HierarchicalTriple"
  | .UnstableTriple => "UnstableTriple"

/-- The constructor index of a `StellarConfiguration` variant. -/
def configCtorIdx : StellarConfiguration → Nat
  | .Single => 0
  | .CloseBinary _ _ => 1
  | .WideBinary _ => 2
  | .HierarchicalTriple _ _ => 3
  | .UnstableTriple => 4

/-- `moon_to_dict` (galaxy.rs:545-568). -/
def moon_to_dict (moon : Moon) : GDict :=
  let d := dictSet [] "moon_type" (.str (moonTypeLabel moon.moon_type))
  let d := dictSet d "mass" (.float moon.mass)
  let d := dictSet d "orbital_radius" (.float moon.position.x)
  let d := dictSet d "position" (.dict (vec3_to_dict moon.position))
  d

/-- `planet_to_dict` (galaxy.rs:492-530). -/
def planet_to_dict (planet : Planet) : GDict :=
  let d := dictSet [] "planet_type" (.str (planetTypeLabel planet.planet_type))
  let d := dictSet d "mass" (.float planet.mass)
  let d := dictSet d "orbital_radius" (.float planet.position.x)
  let d := dictSet d "position" (.dict (vec3_to_dict planet.position))
  let d := dictSet d "moons" (.dictArray (planet.moons.map moon_to_dict))
  let d := dictSet d "moon_count" (.int (toI64 planet.moons.length))
  d

/-- `asteroid_to_dict` (galaxy.rs:618-638). -/
def asteroid_to_dict (asteroid : Asteroid) : GDict :=
  let d := dictSet [] "asteroid_type" (.str (asteroidTypeLabel asteroid.asteroid_type))
  let d := dictSet d "mass" (.float asteroid.mass)
  let d := dictSet d "diameter" (.float asteroid.diameter)
  let d := dictSet d "orbital_radius" (.float asteroid.orbital_radius)
  let d := dictSet d "position" (.dict (vec3_to_dict asteroid.position))
  d

/-- `asteroid_belt_to_dict` (galaxy.rs:585-602). -/
def asteroid_belt_to_dict (belt : AsteroidBelt) : GDict :=
  let d := dictSet [] "name" (.str belt.name)
  let d := dictSet d "inner_radius" (.float belt.inner_radius)
  let d := dictSet d "outer_radius" (.float belt.outer_radius)
  let d := dictSet d "total_mass" (.float belt.total_mass)
  let d := dictSet d "asteroid_count" (.int (toI64 belt.asteroid_count))
  let d := dictSet d "largest_bodies" (.dictArray (belt.largest_bodies.map asteroid_to_dict))
  d

/-- `comet_to_dict` (galaxy.rs:687-708). -/
def comet_to_dict (comet : Comet) : GDict :=
  let d := dictSet [] "comet_type" (.str (cometTypeLabel comet.comet_type))
  let d := dictSet d "mass" (.float comet.mass)
  let d := dictSet d "nucleus_diameter" (.float comet.nucleus_diameter)
  let d := dictSet d "orbital_radius" (.float comet.orbital_radius)
  let d := dictSet d "eccentricity" (.float comet.eccentricity)
  let d := dictSet d "position" (.dict (vec3_to_dict comet.position))
  d

/-- `oort_cloud_to_dict` (galaxy.rs:654-670). -/
def oort_cloud_to_dict (oort : OortCloud) : GDict :=
  let d := dictSet [] "inner_radius" (.float oort.inner_radius)
  let d := dictSet d "outer_radius" (.float oort.outer_radius)
  let d := dictSet d "estimated_population" (.int (toI64 oort.estimated_population))
  let d := dictSet d "total_mass" (.float oort.total_mass)
  let d := dictSet d "notable_comets" (.dictArray (oort.notable_comets.map comet_to_dict))
  d

/-- The `StellarConfiguration` match arm of `get_star_system`
(galaxy.rs:362-393), building the `configuration` sub-dictionary. -/
def stellar_config_to_dict : StellarConfiguration → GDict
  | .Single => dictSet [] "type" (.str "Single")
  | .CloseBinary separation_au is_contact =>
      let d := dictSet [] "type" (.str "CloseBinary")
      let d := dictSet d "separation_au" (.float separation_au)
      let d := dictSet d "is_contact" (.bool is_contact)
      d
  | .WideBinary separation_au =>
      let d := dictSet [] "type" (.str "WideBinary")
      let d := dictSet d "separation_au" (.float separation_au)
      d
  | .HierarchicalTriple inner_separation_au outer_separation_au =>
      let d := dictSet [] "type" (.str "HierarchicalTriple")
      let d := dictSet d "inner_separation_au" (.float inner_separation_au)
      let d := dictSet d "outer_separation_au" (.float outer_separation_au)
      d
  | .UnstableTriple => dictSet [] "type" (.str "UnstableTriple")

/-- Result of a query operation: the post-state (the receiver after the
call), the returned dictionary, and the `godot_error!` diagnostics. -/
structure OpResult where
  state : MeiGalaxy
  value : GDict
  errors : List String

/-- `MeiGalaxy::init` (galaxy.rs:28-34): default seed 0, uninitialized API. -/
def MeiGalaxy.start : MeiGalaxy := { seed := 0, api := none }

/-- `MeiGalaxy::ready` (galaxy.rs:39-42). -/
def MeiGalaxy.ready (env : MeiEnv) (g : MeiGalaxy) : MeiGalaxy :=
  { g with api := some (GalaxyAPI.new env (toU64 g.seed)) }

/-- `set_galaxy_seed` (galaxy.rs:58-63). -/
def set_galaxy_seed (env : MeiEnv) (g : MeiGalaxy) (seed : Int) : MeiGalaxy :=
  { g with seed := seed, api := some (GalaxyAPI.new env (toU64 seed)) }

/-- `load_config` (galaxy.rs:76-82); the second component is the list of
`godot_error!` diagnostics the call emits (it emits none). -/
def load_config (env : MeiEnv) (g : MeiGalaxy) (path : String) :
    MeiGalaxy × List String :=
  let config := env.loadFromFile path
  ({ g with api := some (GalaxyAPI.new_with_config (toU64 g.seed) config) }, [])

/-- `set_nearby_max_radius` (galaxy.rs:89-95). -/
def set_nearby_max_radius (g : MeiGalaxy) (radius : F64) : MeiGalaxy :=
  match g.api with
  | some api =>
      let config := { api.config with nearby_max_radius := radius }
      { g with api := some { api with config := config } }
  | none => g

/-- `get_nearby_max_radius` (galaxy.rs:102-105). -/
def get_nearby_max_radius (g : MeiGalaxy) : F64 :=
  (g.api.map (fun api => api.config.nearby_max_radius)).getD 16

/-- `set_structure_block_size` (galaxy.rs:112-118). -/
def set_structure_block_size (g : MeiGalaxy) (size : F64) : MeiGalaxy :=
  match g.api with
  | some api =>
      let config := { api.config with structure_block_size := size }
      { g with api := some { api with config := config } }
  | none => g

/-- `set_structure_samples_per_block` (galaxy.rs:125-131). -/
def set_structure_samples_per_block (g : MeiGalaxy) (samples : Int) : MeiGalaxy :=
  match g.api with
  | some api =>
      let config := { api.config with structure_samples_per_block := toU64 samples }
      { g with api := some { api with config := config } }
  | none => g

/-- `get_structure` (galaxy.rs:150-194). -/
def get_structure (env : MeiEnv) (g : MeiGalaxy) (max_stars : Int) : OpResult :=
  match g.api with
  | none => { state := g, value := [], errors := ["MeiGalaxy not initialized"] }
  | some api =>
      let stars := env.getGalacticStructure api.seed api.config (toUSize max_stars)
      let count := stars.length
      let positions := stars.map (fun s =>
        (env.f32 s.position.x, env.f32 s.position.y, env.f32 s.position.z))
      let ids := stars.map (fun s => toI64 s.id)
      let luminosities := stars.map (fun s => env.f32 (env.starLuminosity s))
      let temperatures := stars.map (fun s => env.f32 (env.starTemperature s))
      let masses := stars.map (fun s => env.f32 s.mass)
      let star_types := stars.map (fun s => debugFmt s.star_type)
      let estimated_total := env.estimateTotalStars api.seed api.config 500
      let result := dictSet [] "positions" (.vec3Array positions)
      let result := dictSet result "ids" (.i64Array ids)
      let result := dictSet result "luminosities" (.f32Array luminosities)
      let result := dictSet result "temperatures" (.f32Array temperatures)
      let result := dictSet result "masses" (.f32Array masses)
      let result := dictSet result "star_types" (.strArray star_types)
      let result := dictSet result "count" (.int (toI64 count))
      let result := dictSet result "estimated_total_stars" (.int (f64AsI64 estimated_total))
      { state := g, value := result, errors := [] }

/-- `get_nearby_stars_limited` (galaxy.rs:248-291).  Note: the source
computes `clamped_radius` but passes the raw `radius` to the engine;
`clamped_radius` only appears in the elided log line. -/
def get_nearby_stars_limited (env : MeiEnv) (g : MeiGalaxy)
    (x y z radius : F64) (max_stars : Int) : OpResult :=
  match g.api with
  | none => { state := g, value := [], errors := ["MeiGalaxy not initialized"] }
  | some api =>
      let position : Vec3 := { x := x, y := y, z := z }
      let _clamped_radius := min radius api.config.nearby_max_radius
      let stars := env.getNearbyStars api.seed api.config position radius (toUSize max_stars)
      let count := stars.length
      let positions := stars.map (fun s =>
        (env.f32 s.position.x, env.f32 s.position.y, env.f32 s.position.z))
      let ids := stars.map (fun s => toI64 s.id)
      let luminosities := stars.map (fun s => env.f32 (env.typeLuminosity s.star_type))
      let temperatures := stars.map (fun s => env.f32 (env.typeTemperature s.star_type))
      let masses := stars.map (fun s => env.f32 s.mass)
      let star_types := stars.map (fun s => debugFmt s.star_type)
      let result := dictSet [] "positions" (.vec3Array positions)
      let result := dictSet result "ids" (.i64Array ids)
      let result := dictSet result "luminosities" (.f32Array luminosities)
      let result := dictSet result "temperatures" (.f32Array temperatures)
      let result := dictSet result "masses" (.f32Array masses)
      let result := dictSet result "star_types" (.strArray star_types)
      let result := dictSet result "count" (.int (toI64 count))
      { state := g, value := result, errors := [] }

/-- `get_nearby_stars` (galaxy.rs:223-226): the four-argument entry point,
delegating with a default cap of 10,000. -/
def get_nearby_stars (env : MeiEnv) (g : MeiGalaxy) (x y z radius : F64) : OpResult :=
  get_nearby_stars_limited env g x y z radius 10000

/-- The per-star dictionary of the `stars` array in `get_star_system`
(galaxy.rs:343-358); luminosity/temperature come from the type-level
accessors here. -/
def system_star_to_dict (env : MeiEnv) (star : Star) : GDict :=
  let d := dictSet [] "id" (.int (toI64 star.id))
  let d := dictSet d "star_type" (.str (debugFmt star.star_type))
  let d := dictSet d "mass" (.float star.mass)
  let d := dictSet d "luminosity" (.float (env.typeLuminosity star.star_type))
  let d := dictSet d "temperature" (.float (env.typeTemperature star.star_type))
  let d := dictSet d "position" (.dict (vec3_to_dict star.position))
  d

/-- The per-component dictionary of `stellar_components` in
`get_star_system` (galaxy.rs:398-439). -/
def component_to_dict (component : StellarComponent) : GDict :=
  let d := dictSet [] "star_indices" (.i64Array (component.star_indices.map toI64))
  let d := dictSet d "barycenter" (.dict (vec3_to_dict component.barycenter))
  let d := dictSet d "combined_mass" (.float component.combined_mass)
  let d := dictSet d "internal_separation" (.float component.internal_separation)
  let d := dictSet d "is_interacting" (.bool component.is_interacting)
  let d := dictSet d "planet_inner_limit" (.float component.planet_inner_limit)
  let d := dictSet d "planet_outer_limit" (.float component.planet_outer_limit)
  let d := dictSet d "frost_line" (.float component.frost_line)
  let d := dictSet d "habitable_zone_inner" (.float component.habitable_zone_inner)
  let d := dictSet d "habitable_zone_outer" (.float component.habitable_zone_outer)
  let d := dictSet d "inner_planets" (.dictArray (component.inner_planets.map planet_to_dict))
  let d := dictSet d "outer_planets" (.dictArray (component.outer_planets.map planet_to_dict))
  d

/-- `get_star_system` (galaxy.rs:314-474). -/
def get_star_system (env : MeiEnv) (g : MeiGalaxy) (star_id : String) : OpResult :=
  match g.api with
  | none => { state := g, value := [], errors := ["MeiGalaxy not initialized"] }
  | some api =>
      let query : SystemQuery := { star_id := star_id, position := none }
      let system := env.getStarSystem api.seed api.config query
      let result := dictSet [] "star_id" (.str star_id)
      let result := dictSet result "frost_line" (.float system.frost_line)
      let result := dictSet result "habitable_zone_inner" (.float system.habitable_zone_inner)
      let result := dictSet result "habitable_zone_outer" (.float system.habitable_zone_outer)
      let result := dictSet result "position" (.dict (vec3_to_dict system.position))
      let result := dictSet result "stars"
        (.dictArray (system.stars.map (system_star_to_dict env)))
      let result := dictSet result "configuration"
        (.dict (stellar_config_to_dict system.stellar_config))
      let result := dictSet result "stellar_components"
        (.dictArray (system.stellar_components.map component_to_dict))
      let result := dictSet result "inner_planets"
        (.dictArray (system.inner_planets.map planet_to_dict))
      let result := dictSet result "outer_planets"
        (.dictArray (system.outer_planets.map planet_to_dict))
      let result := dictSet result "asteroid_belts"
        (.dictArray (system.asteroid_belts.map asteroid_belt_to_dict))
      let result :=
        match system.oort_cloud with
        | some oort => dictSet result "oort_cloud" (.dict (oort_cloud_to_dict oort))
        | none => result
      { state := g, value := result, errors := [] }

/-- Enumeration of all 14 planet classes. -/
def planetTypeList : List PlanetType :=
  [.Dwarf, .Terrestrial, .SuperEarth, .Desert, .Ocean, .Lava, .MiniNeptune,
   .SubNeptune, .IceGiant, .GasGiant, .HotJupiter, .Chthonian, .Carbon, .Coreless]

/-- Enumeration of all 7 moon classes. -/
def moonTypeList : List MoonType :=
  [.Rocky, .Icy, .IceRock, .Ocean, .Volcanic, .Captured, .Atmospheric]

/-- Enumeration of all 3 asteroid classes. -/
def asteroidTypeList : List AsteroidType := [.Carbonaceous, .Silicate, .Metallic]

/-- Enumeration of all 3 comet classes. -/
def cometTypeList : List CometType := [.ShortPeriod, .LongPeriod, .Hyperbolic]

/-- Test fixture: a concrete generator configuration, `nearby_max_radius`
at its documented default 16.0 light-years. -/
def cfgA : GeneratorConfig :=
  { nearby_max_radius := 16, structure_block_size := 100,
    structure_samples_per_block := 10 }

/-- Test fixture: a mass-1 star sitting 30 light-years from the origin. -/
def starA : Star :=
  { id := 7, position := { x := 30, y := 0, z := 0 }, mass := 1,
    star_type := { name := "G" } }

/-- Test fixture: a single-star system that has no Oort cloud. -/
def sysA : StarSystem :=
  { position := { x := 30, y := 0, z := 0 }, stars := [starA],
    stellar_config := .Single, stellar_components := [], inner_planets := [],
    outer_planets := [], asteroid_belts := [], oort_cloud := none,
    frost_line := 2, habitable_zone_inner := 1, habitable_zone_outer := 2 }

/-- Test fixture: a concrete engine behaviour.  Star-level luminosity and
temperature are the star's mass (a pure function of type and mass, per the
engine contract), the type-level accessors are constantly 0, the galactic
structure query returns up to one star honouring its cap, and the nearby
query returns the star at 30 ly exactly when the forwarded radius reaches
it, honouring its cap. -/
def envA : MeiEnv :=
  { defaultConfig := cfgA
    starLuminosity := fun s => s.mass
    starTemperature := fun s => s.mass
    typeLuminosity := fun _ => 0
    typeTemperature := fun _ => 0
    getGalacticStructure := fun _ _ k => List.replicate (min k 1) starA
    estimateTotalStars := fun _ _ r => r * 500
    getNearbyStars := fun _ _ _ r k => if 30 ≤ r then List.replicate (min k 1) starA else []
    getStarSystem := fun _ _ _ => sysA
    loadFromFile := fun _ => cfgA
    f32 := id }

/-- Test fixture: like `envA` but with type-level accessors constantly 1,
so that the star-level accessors delegate to them on mass-1 stars. -/
def envW : MeiEnv :=
  { envA with typeLuminosity := fun _ => 1, typeTemperature := fun _ => 1 }

/-- Test fixture: a bound `GalaxyAPI`. -/
def apiA : GalaxyAPI := { seed := 0, config := cfgA }

/-- Test fixture: a session bound to `apiA`. -/
def gA : MeiGalaxy := { seed := 0, api := some apiA }

/-- Test fixture: a configuration with a non-default `nearby_max_radius`. -/
def cfg99 : GeneratorConfig :=
  { nearby_max_radius := 99, structure_block_size := 100,
    structure_samples_per_block := 10 }

/-- Test fixture: a session holding a previously valid binding with `cfg99`. -/
def g99 : MeiGalaxy := { seed := 3, api := some { seed := 3, config := cfg99 } }

/-- Looking up the key just set returns the value just set. -/
theorem dictGet_dictSet_self (d : GDict) (k : String) (v : GVal) :
    dictGet (dictSet d k v) k = some v := by
  induction d with
  | nil => simp [dictSet, dictGet]
  | cons p d ih =>
    by_cases h : p.1 = k
    · simp [dictSet, dictGet, h]
    · simp [dictSet, dictGet, h, ih]

/-- Setting one key leaves lookups of any other key unchanged. -/
theorem dictGet_dictSet_ne (d : GDict) (j k : String) (v : GVal) (h : j ≠ k) :
    dictGet (dictSet d k v) j = dictGet d j := by
  induction d with
  | nil => simp [dictSet, dictGet, Ne.symm h]
  | cons p d ih =>
    by_cases hp : p.1 = k
    · simp [dictSet, dictGet, hp, Ne.symm h]
    · by_cases hj : p.1 = j
      · simp [dictSet, dictGet, hp, hj, h]
      · simp [dictSet, dictGet, hp, hj, h, ih]

/-- C10: for every engine behaviour, session state and arguments, the
four-argument `get_nearby_stars(x, y, z, radius)` returns exactly the
result of `get_nearby_stars_limited(x, y, z, radius, 10000)`: the
unlimited entry point is the limited one specialized to a cap of 10,000. -/
theorem get_nearby_stars_is_limited_at_10000 (env : MeiEnv) (g : MeiGalaxy)
    (x y z radius : F64) :
    get_nearby_stars env g x y z radius =
      get_nearby_stars_limited env g x y z radius 10000 := rfl

/-- C5: every query operation (`get_structure`, `get_nearby_stars_limited`,
`get_star_system`) invoked on an unbound session returns an empty
dictionary, emits the "MeiGalaxy not initialized" diagnostic, and leaves
the session state unchanged (and, the embedding being total, raises no
fatal error). -/
theorem unbound_queries_fail_soft (env : MeiEnv) (g : MeiGalaxy)
    (h : g.api = none) (max_stars : Int) (x y z radius : F64)
    (nearby_max : Int) (star_id : String) :
    get_structure env g max_stars =
      { state := g, value := [], errors := ["MeiGalaxy not initialized"] } ∧
    get_nearby_stars_limited env g x y z radius nearby_max =
      { state := g, value := [], errors := ["MeiGalaxy not initialized"] } ∧
    get_star_system env g star_id =
      { state := g, value := [], errors := ["MeiGalaxy not initialized"] } := by
  obtain ⟨s, a⟩ := g
  change a = none at h
  subst h
  exact ⟨rfl, rfl, rfl⟩

/-- Witness for C5 at the freshly initialized (hence unbound) node state. -/
theorem unbound_queries_fail_soft_witness :
    MeiGalaxy.start.api = none ∧
    (get_structure envA MeiGalaxy.start 5 =
      { state := MeiGalaxy.start, value := [],
        errors := ["MeiGalaxy not initialized"] } ∧
     get_nearby_stars_limited envA MeiGalaxy.start 0 0 0 50 100 =
      { state := MeiGalaxy.start, value := [],
        errors := ["MeiGalaxy not initialized"] } ∧
     get_star_system envA MeiGalaxy.start "7" =
      { state := MeiGalaxy.start, value := [],
        errors := ["MeiGalaxy not initialized"] }) :=
  ⟨rfl, unbound_queries_fail_soft envA MeiGalaxy.start rfl 5 0 0 0 50 100 "7"⟩

/-- C3 counterexample: on an unbound session, `set_nearby_max_radius`
leaves the binding absent, so after the setter returns the session's
engine binding is not a freshly constructed engine (there is no binding at
all), refuting the claim for this setter. -/
theorem set_nearby_max_radius_unbound_no_rebind :
    (set_nearby_max_radius { seed := 7, api := none } 5).api = none := rfl

/-- C3 amended: `set_galaxy_seed` (and `load_config`) replace the binding
with a freshly constructed engine, but the three config setters only
update the named field of the currently bound engine's config in place —
an unbound session stays unbound, the engine is not reconstructed. -/
theorem setter_rebind_semantics (env : MeiEnv) (g : MeiGalaxy)
    (seed : Int) (path : String) (v : F64) (n : Int) :
    set_galaxy_seed env g seed =
      { g with seed := seed, api := some (GalaxyAPI.new env (toU64 seed)) } ∧
    (load_config env g path).1 =
      { g with api := some (GalaxyAPI.new_with_config (toU64 g.seed)
                              (env.loadFromFile path)) } ∧
    (set_nearby_max_radius g v).seed = g.seed ∧
    (set_nearby_max_radius g v).api =
      g.api.map (fun api => { api with config :=
        { api.config with nearby_max_radius := v } }) ∧
    (set_structure_block_size g v).api =
      g.api.map (fun api => { api with config :=
        { api.config with structure_block_size := v } }) ∧
    (set_structure_samples_per_block g n).api =
      g.api.map (fun api => { api with config :=
        { api.config with structure_samples_per_block := toU64 n } }) := by
  obtain ⟨s, a⟩ := g
  cases a <;> exact ⟨rfl, rfl, rfl, rfl, rfl, rfl⟩

/-- C6 counterexample: with a loader that returns the default
configuration for an unreadable file, `load_config` on a session bound to
`cfg99` discards the previously valid binding (rebinding to the loader's
output instead of retaining it) and surfaces no error diagnostic. -/
theorem load_config_discards_previous_binding :
    (load_config envA g99 "missing.toml").1.api =
      some { seed := 3, config := cfgA } ∧
    some ({ seed := 3, config := cfgA } : GalaxyAPI) ≠ g99.api ∧
    (load_config envA g99 "missing.toml").2 = [] :=
  ⟨rfl, by decide, rfl⟩

/-- C6 amended: `load_config` performs no error handling at all: it
unconditionally replaces the binding with a fresh engine built from
whatever configuration the external loader returns, and emits no error
diagnostic; the previous binding is never retained. -/
theorem load_config_unconditional_rebind (env : MeiEnv) (g : MeiGalaxy)
    (path : String) :
    load_config env g path =
      ({ g with api := some (GalaxyAPI.new_with_config (toU64 g.seed)
                               (env.loadFromFile path)) }, []) := rfl

/-- C1 (code bug): `get_nearby_stars_limited` computes the clamped radius
`min(radius, nearby_max_radius)` but forwards the raw radius to the
engine's nearby query.  With `nearby_max_radius = 16` and a star 30 ly
out, querying with radius 50 returns that star (count 1) while querying
with the clamped value 16 returns none (count 0), so the raw radius — not
`min(radius, nearby_max_radius) = 16` — reached the engine, contradicting
the function's own doc comment and log line. -/
theorem nearby_raw_radius_forwarded_bug :
    min (50 : F64) apiA.config.nearby_max_radius = 16 ∧
    dictGet (get_nearby_stars_limited envA gA 0 0 0 50 100).value "count" =
      some (.int 1) ∧
    dictGet (get_nearby_stars_limited envA gA 0 0 0 16 100).value "count" =
      some (.int 0) :=
  ⟨by decide, rfl, rfl⟩

/-- C9: on every bound session and for every `max_stars` value (including
0, where the columnar arrays are empty), `get_structure` computes its
`estimated_total_stars` field by evaluating the engine's total-star
estimate at the fixed reference radius 500.0 light-years, and the field is
present in the returned dictionary. -/
theorem get_structure_estimate_at_500 (env : MeiEnv) (g : MeiGalaxy)
    (api : GalaxyAPI) (h : g.api = some api) (max_stars : Int) :
    dictGet (get_structure env g max_stars).value "estimated_total_stars" =
      some (.int (f64AsI64 (env.estimateTotalStars api.seed api.config 500))) := by
  obtain ⟨s, a⟩ := g
  change a = some api at h
  subst h
  exact dictGet_dictSet_self _ _ _

/-- Witness for C9: at `max_stars = 0` the fixture engine returns no stars,
yet the estimate field is present and equals the engine's estimate at
radius 500 (`500 * 500 = 250000`). -/
theorem get_structure_estimate_at_500_witness :
    gA.api = some apiA ∧
    envA.getGalacticStructure apiA.seed apiA.config (toUSize 0) = [] ∧
    dictGet (get_structure envA gA 0).value "count" = some (.int 0) ∧
    dictGet (get_structure envA gA 0).value "estimated_total_stars" =
      some (.int 250000) := by
  have he : f64AsI64 (envA.estimateTotalStars apiA.seed apiA.config 500) = 250000 := by
    show f64AsI64 ((500 : F64) * 500) = 250000
    norm_num [f64AsI64]
  refine ⟨rfl, rfl, rfl, ?_⟩
  rw [get_structure_estimate_at_500 envA gA apiA rfl 0, he]

/-- C8: on every bound session, if the engine's star system has no Oort
cloud then the dictionary produced by `get_star_system` omits the
`oort_cloud` key entirely, and if it has one the key is set to the full
projected Oort-cloud record. -/
theorem get_star_system_oort_optional (env : MeiEnv) (g : MeiGalaxy)
    (api : GalaxyAPI) (star_id : String) (h : g.api = some api) :
    ((env.getStarSystem api.seed api.config
        { star_id := star_id, position := none }).oort_cloud = none →
      dictGet (get_star_system env g star_id).value "oort_cloud" = none) ∧
    (∀ oort,
      (env.getStarSystem api.seed api.config
        { star_id := star_id, position := none }).oort_cloud = some oort →
      dictGet (get_star_system env g star_id).value "oort_cloud" =
        some (.dict (oort_cloud_to_dict oort))) := by
  obtain ⟨s, a⟩ := g
  change a = some api at h
  subst h
  constructor
  · intro ho
    simp only [get_star_system, ho]
    simp [dictGet_dictSet_ne, dictGet]
  · intro oort ho
    simp only [get_star_system, ho]
    exact dictGet_dictSet_self _ _ _

/-- Witness for C8: the fixture system has no Oort cloud and the projected
dictionary has no `oort_cloud` key. -/
theorem get_star_system_oort_optional_witness :
    gA.api = some apiA ∧
    (envA.getStarSystem apiA.seed apiA.config
      { star_id := "7", position := none }).oort_cloud = none ∧
    dictGet (get_star_system envA gA "7").value "oort_cloud" = none :=
  ⟨rfl, rfl, (get_star_system_oort_optional envA gA apiA "7" rfl).1 rfl⟩

/-- C7: every type-to-label mapping of the projection layer is total (the
enumeration lists below cover every variant) with pairwise-distinct
explicit labels and no default fallthrough: all 14 planet labels, 7 moon
labels, 3 asteroid labels and 3 comet labels are distinct, two
`StellarConfiguration` values get the same `type` tag only when they are
the same variant, and each projection dictionary carries exactly these
labels. -/
theorem projection_labels_total_and_distinct :
    (∀ t : PlanetType, t ∈ planetTypeList) ∧ planetTypeList.length = 14 ∧
    (planetTypeList.map planetTypeLabel).Nodup ∧
    (∀ t : MoonType, t ∈ moonTypeList) ∧ moonTypeList.length = 7 ∧
    (moonTypeList.map moonTypeLabel).Nodup ∧
    (∀ t : AsteroidType, t ∈ asteroidTypeList) ∧ asteroidTypeList.length = 3 ∧
    (asteroidTypeList.map asteroidTypeLabel).Nodup ∧
    (∀ t : CometType, t ∈ cometTypeList) ∧ cometTypeList.length = 3 ∧
    (cometTypeList.map cometTypeLabel).Nodup ∧
    (∀ c d : StellarConfiguration,
      configTypeLabel c = configTypeLabel d → configCtorIdx c = configCtorIdx d) ∧
    (∀ p : Planet, dictGet (planet_to_dict p) "planet_type" =
      some (.str (planetTypeLabel p.planet_type))) ∧
    (∀ m : Moon, dictGet (moon_to_dict m) "moon_type" =
      some (.str (moonTypeLabel m.moon_type))) ∧
    (∀ a : Asteroid, dictGet (asteroid_to_dict a) "asteroid_type" =
      some (.str (asteroidTypeLabel a.asteroid_type))) ∧
    (∀ c : Comet, dictGet (comet_to_dict c) "comet_type" =
      some (.str (cometTypeLabel c.comet_type))) ∧
    (∀ c : StellarConfiguration, dictGet (stellar_config_to_dict c) "type" =
      some (.str (configTypeLabel c))) := by
  refine ⟨?_, rfl, by decide, ?_, rfl, by decide, ?_, rfl, by decide,
          ?_, rfl, by decide, ?_, ?_, ?_, ?_, ?_, ?_⟩
  · intro t; cases t <;> simp [planetTypeList]
  · intro t; cases t <;> simp [moonTypeList]
  · intro t; cases t <;> simp [asteroidTypeList]
  · intro t; cases t <;> simp [cometTypeList]
  · intro c d
    cases c <;> cases d <;> simp only [configTypeLabel, configCtorIdx] <;> decide
  · intro p; rfl
  · intro m; rfl
  · intro a; rfl
  · intro c; rfl
  · intro c; cases c <;> rfl

/-- C2 counterexample: with the fixture engine — whose star-level
luminosity and temperature accessors return the star's mass (a pure
function of type and mass) while the type-level accessors return 0 — both
queries see the same one-star list, yet `get_structure` pushes
`star.luminosity()` (= 1) where `get_nearby_stars_limited` pushes
`star.star_type.luminosity()` (= 0): the luminosity and temperature
columns differ on the same star list, so the two operations do not
serialize through the same columnar function. -/
theorem columnar_luminosity_differs :
    envA.getGalacticStructure apiA.seed apiA.config (toUSize 10) = [starA] ∧
    envA.getNearbyStars apiA.seed apiA.config { x := 0, y := 0, z := 0 } 50
      (toUSize 10) = [starA] ∧
    dictGet (get_structure envA gA 10).value "luminosities" =
      some (.f32Array [1]) ∧
    dictGet (get_nearby_stars_limited envA gA 0 0 0 50 10).value "luminosities" =
      some (.f32Array [0]) ∧
    some (GVal.f32Array [1]) ≠ some (GVal.f32Array [0]) := by
  refine ⟨rfl, rfl, rfl, rfl, ?_⟩
  simp

/-- C2 amended: both operations push masses, ids, positions and type
labels through identical pure functions, but `get_structure` derives
luminosity and temperature from the star-level accessors while
`get_nearby_stars_limited` derives them from the type-level accessors;
whenever the star-level accessors delegate to the type-level ones on the
queried list (and both engine calls yield the same list), the columnar
dictionaries agree — `get_structure` only adds `estimated_total_stars` on
top of the nearby-query dictionary. -/
theorem columnar_agreement_under_delegation (env : MeiEnv) (g : MeiGalaxy)
    (api : GalaxyAPI) (h : g.api = some api) (max_stars : Int)
    (x y z radius : F64)
    (hsame : env.getNearbyStars api.seed api.config { x := x, y := y, z := z }
        radius (toUSize max_stars) =
      env.getGalacticStructure api.seed api.config (toUSize max_stars))
    (hl : ∀ s ∈ env.getGalacticStructure api.seed api.config (toUSize max_stars),
      env.starLuminosity s = env.typeLuminosity s.star_type)
    (ht : ∀ s ∈ env.getGalacticStructure api.seed api.config (toUSize max_stars),
      env.starTemperature s = env.typeTemperature s.star_type) :
    (get_structure env g max_stars).value =
      dictSet (get_nearby_stars_limited env g x y z radius max_stars).value
        "estimated_total_stars"
        (.int (f64AsI64 (env.estimateTotalStars api.seed api.config 500))) := by
  obtain ⟨sd, a⟩ := g
  change a = some api at h
  subst h
  have hlum :
      (env.getGalacticStructure api.seed api.config (toUSize max_stars)).map
          (fun s => env.f32 (env.starLuminosity s)) =
        (env.getGalacticStructure api.seed api.config (toUSize max_stars)).map
          (fun s => env.f32 (env.typeLuminosity s.star_type)) :=
    List.map_congr_left (fun s hs => by rw [hl s hs])
  have htemp :
      (env.getGalacticStructure api.seed api.config (toUSize max_stars)).map
          (fun s => env.f32 (env.starTemperature s)) =
        (env.getGalacticStructure api.seed api.config (toUSize max_stars)).map
          (fun s => env.f32 (env.typeTemperature s.star_type)) :=
    List.map_congr_left (fun s hs => by rw [ht s hs])
  simp only [get_structure, get_nearby_stars_limited, hsame, hlum, htemp]

/-- Witness for C2 amended, with the delegating fixture engine `envW`. -/
theorem columnar_agreement_under_delegation_witness :
    gA.api = some apiA ∧
    envW.getNearbyStars apiA.seed apiA.config { x := 0, y := 0, z := 0 } 50
      (toUSize 10) = envW.getGalacticStructure apiA.seed apiA.config (toUSize 10) ∧
    (∀ s ∈ envW.getGalacticStructure apiA.seed apiA.config (toUSize 10),
      envW.starLuminosity s = envW.typeLuminosity s.star_type) ∧
    (get_structure envW gA 10).value =
      dictSet (get_nearby_stars_limited envW gA 0 0 0 50 10).value
        "estimated_total_stars"
        (.int (f64AsI64 (envW.estimateTotalStars apiA.seed apiA.config 500))) :=
  ⟨rfl, rfl, by decide,
   columnar_agreement_under_delegation envW gA apiA rfl 10 0 0 0 50 rfl
     (by decide) (by decide)⟩

/-- C4 counterexample: `get_structure` casts `max_stars` from i64 to usize
without clamping, so `max_stars = -1` becomes the huge cap `2^64 - 1`; the
fixture engine then returns one star and the returned dictionary reports
`count = 1`, which is not at most `-1` — the claim fails for negative
`max_stars` values. -/
theorem get_structure_negative_cap :
    dictGet (get_structure envA gA (-1)).value "count" = some (.int 1) ∧
    ¬ ((1 : Int) ≤ -1) :=
  ⟨rfl, by decide⟩

/-- C4 amended: on every bound session, for every non-negative i64
`max_stars` and every engine honouring its cap contract, `get_structure`
returns at most `max_stars` stars, its `count` field equals the star-list
length exactly, and all six columnar arrays are the index-aligned images
of that same star list (hence of equal length, with element `i` of every
array describing star `i`). -/
theorem get_structure_cap_and_alignment (env : MeiEnv) (g : MeiGalaxy)
    (api : GalaxyAPI) (h : g.api = some api) (max_stars : Int)
    (h0 : 0 ≤ max_stars) (h1 : max_stars < (2 : Int) ^ 63)
    (hcap : ∀ k, (env.getGalacticStructure api.seed api.config k).length ≤ k)
    (stars : List Star)
    (hs : stars = env.getGalacticStructure api.seed api.config (toUSize max_stars)) :
    (stars.length : Int) ≤ max_stars ∧
    toI64 stars.length = (stars.length : Int) ∧
    dictGet (get_structure env g max_stars).value "count" =
      some (.int (toI64 stars.length)) ∧
    dictGet (get_structure env g max_stars).value "positions" =
      some (.vec3Array (stars.map
        (fun s => (env.f32 s.position.x, env.f32 s.position.y, env.f32 s.position.z)))) ∧
    dictGet (get_structure env g max_stars).value "ids" =
      some (.i64Array (stars.map (fun s => toI64 s.id))) ∧
    dictGet (get_structure env g max_stars).value "luminosities" =
      some (.f32Array (stars.map (fun s => env.f32 (env.starLuminosity s)))) ∧
    dictGet (get_structure env g max_stars).value "temperatures" =
      some (.f32Array (stars.map (fun s => env.f32 (env.starTemperature s)))) ∧
    dictGet (get_structure env g max_stars).value "masses" =
      some (.f32Array (stars.map (fun s => env.f32 s.mass))) ∧
    dictGet (get_structure env g max_stars).value "star_types" =
      some (.strArray (stars.map (fun s => debugFmt s.star_type))) := by
  obtain ⟨sd, a⟩ := g
  change a = some api at h
  subst h
  have hlen : stars.length ≤ toUSize max_stars := hs ▸ hcap (toUSize max_stars)
  unfold toUSize at hlen
  norm_num at h1 hlen
  have hbound : (stars.length : Int) ≤ max_stars := by omega
  have hsmall : stars.length < 2 ^ 63 := by omega
  refine ⟨hbound, by unfold toI64; rw [if_pos hsmall], ?_, ?_, ?_, ?_, ?_, ?_, ?_⟩ <;>
    simp [get_structure, dictGet_dictSet_self, dictGet_dictSet_ne, ← hs]

/-- Witness for C4 amended at `max_stars = 3`, where the fixture engine
returns the single star `starA`. -/
theorem get_structure_cap_and_alignment_witness :
    gA.api = some apiA ∧ (0 : Int) ≤ 3 ∧ (3 : Int) < (2 : Int) ^ 63 ∧
    [starA] = envA.getGalacticStructure apiA.seed apiA.config (toUSize 3) ∧
    (([starA].length : Int) ≤ 3 ∧
     toI64 [starA].length = ([starA].length : Int) ∧
     dictGet (get_structure envA gA 3).value "count" =
       some (.int (toI64 [starA].length)) ∧
     dictGet (get_structure envA gA 3).value "positions" =
       some (.vec3Array ([starA].map
         (fun s => (envA.f32 s.position.x, envA.f32 s.position.y, envA.f32 s.position.z)))) ∧
     dictGet (get_structure envA gA 3).value "ids" =
       some (.i64Array ([starA].map (fun s => toI64 s.id))) ∧
     dictGet (get_structure envA gA 3).value "luminosities" =
       some (.f32Array ([starA].map (fun s => envA.f32 (envA.starLuminosity s)))) ∧
     dictGet (get_structure envA gA 3).value "temperatures" =
       some (.f32Array ([starA].map (fun s => envA.f32 (envA.starTemperature s)))) ∧
     dictGet (get_structure envA gA 3).value "masses" =
       some (.f32Array ([starA].map (fun s => envA.f32 s.mass))) ∧
     dictGet (get_structure envA gA 3).value "star_types" =
       some (.strArray ([starA].map (fun s => debugFmt s.star_type)))) :=
  ⟨rfl, by decide, by decide, rfl,
   get_structure_cap_and_alignment envA gA apiA rfl 3 (by decide) (by decide)
     (fun k => by simp [envA]) [starA] rfl⟩

end MeiGodot
